import Mathlib

/-!
Verification of the docker-secure-list-api gateway (src/auth.js, src/docker.js,
src/server.js) against its natural-language specification.

Modelling conventions:
* JavaScript strings are modelled as `List Char` (`Str`); `str` converts a Lean
  string literal.  JavaScript string operations (`slice`, `startsWith`, `trim`,
  `includes`, `replace` with the concrete anchored patterns used by the code)
  are translated to the corresponding list operations.
* JavaScript numbers that occur in this code base are exact decimal values
  (digit strings scaled by powers of 1024 and `Math.round`); they are modelled
  by `JsNum`: either `nan` or `finite n d` denoting the rational `n / 10 ^ d`.
  `JsNum.toRat` is the numeric view used to state specification equalities.
* Fallible engine / filesystem / subprocess calls are modelled by explicit
  oracles (`Option Str` failure results or `Except Str` outcomes) supplied as
  parameters, and side effects are recorded in explicit traces or state lists.
-/

abbrev Str := List Char

def str (s : String) : Str := s.toList

/-- Decidable equality for `Except`, used to evaluate models on concrete
inputs. -/
def exceptDecEq {ε α : Type} [DecidableEq ε] [DecidableEq α] :
    DecidableEq (Except ε α)
  | .error a, .error b =>
    match decEq a b with
    | isTrue h => isTrue (by rw [h])
    | isFalse h => isFalse (by intro hh; cases hh; exact h rfl)
  | .error _, .ok _ => isFalse (by intro h; cases h)
  | .ok _, .error _ => isFalse (by intro h; cases h)
  | .ok a, .ok b =>
    match decEq a b with
    | isTrue h => isTrue (by rw [h])
    | isFalse h => isFalse (by intro hh; cases hh; exact h rfl)

instance {ε α : Type} [DecidableEq ε] [DecidableEq α] :
    DecidableEq (Except ε α) := exceptDecEq

/-! ## Token verification and the authorization gate (src/auth.js) -/

/-- Decoded form of the `scopes` claim of a JWT payload: either absent,
present but not an array, or an array of scope strings
(cf. `Array.isArray(payload.scopes)` in src/auth.js). -/
inductive ScopesVal
| absent
| notArray
| array (xs : List Str)
deriving DecidableEq

/-- Decoded JWT payload as far as the middleware inspects it. -/
structure JwtPayload where
  scopes : ScopesVal
deriving DecidableEq

/-- Verification-relevant attributes of a decodable token: signature validity
under the configured algorithm and expiry. -/
structure TokenInfo where
  sigValid : Bool
  expired : Bool
  payload : JwtPayload
deriving DecidableEq

/-- A world of tokens: maps a token string to its attributes, `none` meaning
the string is not even a decodable JWT. -/
abbrev TokenWorld := Str → Option TokenInfo

/-- Model of `jwt.verify(token, key, verifyOpts)`: throws (here: `.error`) for
undecodable tokens, bad signatures and expired tokens; otherwise returns the
decoded payload. -/
def jwtVerify (world : TokenWorld) (token : Str) : Except Str JwtPayload :=
  match world token with
  | none => .error (str "jwt malformed")
  | some t =>
    if !t.sigValid then .error (str "invalid signature")
    else if t.expired then .error (str "jwt expired")
    else .ok t.payload

/-- Outcome of the auth middleware: either an error response (status, error
code) or control passed to the wrapped handler with `req.user = payload`. -/
inductive AuthResult
| respond (status : ℕ) (error : Str)
| next (payload : JwtPayload)
deriving DecidableEq

/-- Scope list the middleware works with:
`Array.isArray(payload.scopes) ? payload.scopes : []`. -/
def scopesOf (p : JwtPayload) : List Str :=
  match p.scopes with
  | .array xs => xs
  | _ => []

/-- Model of the inner `auth(req, res, next)` middleware of
`makeAuthMiddleware` (src/auth.js lines 19-37).  `authHeader` is
`req.headers.authorization` (`none` when absent).  The `try`/`catch` around
the body is modelled by `jwtVerify` returning `.error` exactly where
`jwt.verify` throws; no other statement in the body can throw. -/
def auth (world : TokenWorld) (authHeader : Option Str) : AuthResult :=
  let raw := authHeader.getD []
  let token := if (str "Bearer ").isPrefixOf raw then raw.drop 7 else raw
  if token.isEmpty then .respond 401 (str "missing_token")
  else
    match jwtVerify world token with
    | .error _ => .respond 401 (str "invalid_token")
    | .ok payload =>
      if !(scopesOf payload).contains (str "docker:list") then
        .respond 403 (str "forbidden")
      else
        .next payload

theorem isPrefixOf_append (p t : List Char) : p.isPrefixOf (p ++ t) = true := by
  induction p with
  | nil => simp [List.isPrefixOf]
  | cons a as ih => simp [List.isPrefixOf, ih]

theorem bearer_drop (tok : Str) : (str "Bearer " ++ tok).drop 7 = tok := by
  have h7 : (str "Bearer ").length = 7 := by decide
  rw [← h7, List.drop_left]

/-- Helper: on a header of the form `Bearer <tok>` with `tok` nonempty, the
middleware verifies `tok` and dispatches on the result. -/
theorem auth_bearer (world : TokenWorld) (tok : Str) (hne : tok ≠ []) :
    auth world (some (str "Bearer " ++ tok)) =
      (match jwtVerify world tok with
       | .error _ => .respond 401 (str "invalid_token")
       | .ok payload =>
         if !(scopesOf payload).contains (str "docker:list") then
           .respond 403 (str "forbidden")
         else
           .next payload) := by
  unfold auth
  simp only [Option.getD_some, isPrefixOf_append, if_true, bearer_drop]
  cases tok with
  | nil => exact absurd rfl hne
  | cons c cs => simp [List.isEmpty]

/-! ### Claims C1, C9, C10: behaviour of the authorization gate -/

/-- Token world for the C1 counterexample: the token string `tok` decodes to a
payload whose scope array lacks `docker:list`, but its signature is invalid. -/
def c1World : TokenWorld := fun t =>
  if t == str "tok" then some ⟨false, false, ⟨.array []⟩⟩ else none

/-- C1 (counterexample): a presented token whose decoded claims lack the
capability `docker:list` but whose signature is invalid is answered with
401 `invalid_token`, not with 403 — refuting "the response is 403 …
regardless of whether the token's signature is valid or invalid". -/
theorem c1_lacking_capability_bad_signature_gives_401 :
    auth c1World (some (str "Bearer tok")) = .respond 401 (str "invalid_token")
      ∧ auth c1World (some (str "Bearer tok")) ≠ .respond 403 (str "forbidden") := by
  decide

/-- C1 (amended): a bearer token that decodes, has a valid signature and is
not expired, and whose scope array lacks `docker:list`, is answered 403
`forbidden`; but a token lacking the capability whose signature is invalid is
answered 401 `invalid_token` instead. -/
theorem c1_forbidden_requires_valid_signature (world : TokenWorld) (tok : Str)
    (info : TokenInfo) (hw : world tok = some info) (hne : tok ≠ []) :
    ((info.sigValid = true ∧ info.expired = false ∧
        str "docker:list" ∉ scopesOf info.payload) →
      auth world (some (str "Bearer " ++ tok)) = .respond 403 (str "forbidden"))
    ∧ (info.sigValid = false →
      auth world (some (str "Bearer " ++ tok)) = .respond 401 (str "invalid_token")) := by
  constructor
  · rintro ⟨hsig, hexp, hcap⟩
    rw [auth_bearer world tok hne]
    simp [jwtVerify, hw, hsig, hexp, hcap]
  · intro hsig
    rw [auth_bearer world tok hne]
    simp [jwtVerify, hw, hsig]

/-- Token world for the C1 witness: `t1` verifies but only carries the scope
`other`. -/
def c1WitnessWorld : TokenWorld := fun t =>
  if t == str "t1" then some ⟨true, false, ⟨.array [str "other"]⟩⟩ else none

/-- C1 witness: concrete instantiation of the amended theorem. -/
theorem c1_forbidden_requires_valid_signature_witness :
    auth c1WitnessWorld (some (str "Bearer t1")) = .respond 403 (str "forbidden") :=
  (c1_forbidden_requires_valid_signature c1WitnessWorld (str "t1")
      ⟨true, false, ⟨.array [str "other"]⟩⟩ (by decide) (by decide)).1
    (by refine ⟨rfl, rfl, ?_⟩; decide)

/-- C9 (counterexample): a request whose authorization header is nonempty but
does not carry the `Bearer ` prefix is treated as a raw token; when it fails
verification the response is 401 `invalid_token`, not the distinct
`missing_token` error the claim requires for a malformed bearer prefix. -/
theorem c9_malformed_bearer_gives_invalid_token :
    auth (fun _ => none) (some (str "Token abc")) = .respond 401 (str "invalid_token")
      ∧ auth (fun _ => none) (some (str "Token abc"))
          ≠ .respond 401 (str "missing_token") := by
  decide

/-- C9 (amended): an absent authorization header, or a header whose token part
is empty, yields 401 `missing_token`; an expired token and a bad-signature
token each yield 401 `invalid_token` (never 403); a nonempty header without
the bearer prefix is used as the token itself and yields 401 `invalid_token`
when it is not a decodable JWT. -/
theorem c9_auth_error_taxonomy (world : TokenWorld) :
    (auth world none = .respond 401 (str "missing_token"))
    ∧ (auth world (some (str "Bearer ")) = .respond 401 (str "missing_token"))
    ∧ (∀ tok info, world tok = some info → tok ≠ [] → info.sigValid = true →
        info.expired = true →
        auth world (some (str "Bearer " ++ tok)) = .respond 401 (str "invalid_token"))
    ∧ (∀ tok info, world tok = some info → tok ≠ [] → info.sigValid = false →
        auth world (some (str "Bearer " ++ tok)) = .respond 401 (str "invalid_token"))
    ∧ (∀ raw, raw ≠ [] → (str "Bearer ").isPrefixOf raw = false → world raw = none →
        auth world (some raw) = .respond 401 (str "invalid_token")) := by
  refine ⟨rfl, ?_, ?_, ?_, ?_⟩
  · rfl
  · intro tok info hw hne hsig hexp
    rw [auth_bearer world tok hne]
    simp [jwtVerify, hw, hsig, hexp]
  · intro tok info hw hne hsig
    rw [auth_bearer world tok hne]
    simp [jwtVerify, hw, hsig]
  · intro raw hne hpre hw
    unfold auth
    cases raw with
    | nil => exact absurd rfl hne
    | cons c cs => simp [hpre, List.isEmpty, jwtVerify, hw]

/-- Token world for the C9 witness: `exp` is an expired token that even holds
the required capability. -/
def c9WitnessWorld : TokenWorld := fun t =>
  if t == str "exp" then some ⟨true, true, ⟨.array [str "docker:list"]⟩⟩ else none

/-- C9 witness: an expired token carrying the capability still gets 401. -/
theorem c9_auth_error_taxonomy_witness :
    auth c9WitnessWorld (some (str "Bearer exp")) = .respond 401 (str "invalid_token") :=
  (c9_auth_error_taxonomy c9WitnessWorld).2.2.1 (str "exp")
    ⟨true, true, ⟨.array [str "docker:list"]⟩⟩ (by decide) (by decide) rfl rfl

/-- C10: a token that verifies (valid signature, unexpired) but whose decoded
payload has a `scopes` claim that is absent or not an array is treated as
having an empty capability set and is answered 403 `forbidden` — not 401, and
the middleware does not throw. -/
theorem c10_nonarray_scopes_forbidden (world : TokenWorld) (tok : Str)
    (info : TokenInfo) (hw : world tok = some info) (hne : tok ≠ [])
    (hsig : info.sigValid = true) (hexp : info.expired = false)
    (hscopes : info.payload.scopes = .absent ∨ info.payload.scopes = .notArray) :
    auth world (some (str "Bearer " ++ tok)) = .respond 403 (str "forbidden") := by
  rw [auth_bearer world tok hne]
  have hcap : str "docker:list" ∉ scopesOf info.payload := by
    rcases hscopes with h | h <;> simp [scopesOf, h]
  simp [jwtVerify, hw, hsig, hexp, hcap]

/-- Token world for the C10 witness: `t2` verifies but its payload has a
non-array `scopes` claim. -/
def c10WitnessWorld : TokenWorld := fun t =>
  if t == str "t2" then some ⟨true, false, ⟨.notArray⟩⟩ else none

/-- C10 witness: concrete instantiation of `c10_nonarray_scopes_forbidden`. -/
theorem c10_nonarray_scopes_forbidden_witness :
    auth c10WitnessWorld (some (str "Bearer t2")) = .respond 403 (str "forbidden") :=
  c10_nonarray_scopes_forbidden c10WitnessWorld (str "t2") ⟨true, false, ⟨.notArray⟩⟩
    (by decide) (by decide) rfl rfl (Or.inr rfl)

/-! ## Container lifecycle operations: batch restart
(src/docker.js `restartContainers`, src/server.js `POST /v1/containers/restart`) -/

/-- Per-item outcome record pushed by `restartContainers`: either
`(id, status:"restarted")` or `(id, status:"error", error:detail)`. -/
structure RestartOutcome where
  id : Str
  status : Str
  error : Option Str
deriving DecidableEq

/-- Engine oracle for `docker.getContainer(id).restart()`: `none` means the
restart succeeds, `some msg` that it rejects with `err.message = msg`. -/
abbrev RestartEngine := Str → Option Str

/-- Body of the per-item `try`/`catch` in `restartContainers`. -/
def restartOne (engine : RestartEngine) (id : Str) : RestartOutcome :=
  match engine id with
  | none => ⟨id, str "restarted", none⟩
  | some msg => ⟨id, str "error", some msg⟩

/-- Model of `restartContainers(docker, ids)` (src/docker.js lines 64-79).
`ids = none` models a body whose `ids` is not an array.  Returns the thrown
error or the result list, paired with the ids on which a restart was actually
attempted (each loop iteration calls `container.restart()` exactly once). -/
def restartContainers (engine : RestartEngine) (ids : Option (List Str)) :
    Except Str (List RestartOutcome) × List Str :=
  match ids with
  | none => (.error (str "invalid_ids"), [])
  | some l =>
    if l.length ≠ 4 then (.error (str "invalid_ids"), [])
    else
      let r := l.foldl
        (fun (acc : List RestartOutcome × List Str) id =>
          (acc.1 ++ [restartOne engine id], acc.2 ++ [id])) ([], [])
      (.ok r.1, r.2)

/-- Model of the `POST /v1/containers/restart` handler (src/server.js lines
46-61): validates the fixed count of 4 before calling `restartContainers`,
maps a thrown error to 500 and success to a 200 with the result list. -/
def restartRoute (engine : RestartEngine) (bodyIds : Option (List Str)) :
    (ℕ × Option (List RestartOutcome)) × List Str :=
  match bodyIds with
  | none => ((400, none), [])
  | some l =>
    if l.length ≠ 4 then ((400, none), [])
    else
      match restartContainers engine (some l) with
      | (.ok r, tr) => ((200, some r), tr)
      | (.error _, tr) => ((500, none), tr)

theorem restart_foldl (engine : RestartEngine) (l : List Str)
    (acc : List RestartOutcome) (tr : List Str) :
    l.foldl (fun (acc : List RestartOutcome × List Str) id =>
        (acc.1 ++ [restartOne engine id], acc.2 ++ [id])) (acc, tr)
      = (acc ++ l.map (restartOne engine), tr ++ l) := by
  induction l generalizing acc tr with
  | nil => simp
  | cons a as ih => simp [ih]

/-- C2: for a request body whose `ids` is an array of exactly 4 references,
the route answers 200 with exactly 4 outcome records in input order, each
marked restarted or marked error with detail; every item is attempted (one
failure suppresses nothing) and nothing is thrown.  Any body whose `ids` is
not an array of exactly 4 references is answered 400 with no restart
attempted. -/
theorem c2_restart_batch_contract (engine : RestartEngine)
    (bodyIds : Option (List Str)) :
    (∀ l, bodyIds = some l → l.length = 4 →
      ∃ rs, restartRoute engine bodyIds = ((200, some rs), l)
        ∧ rs.length = 4
        ∧ rs = l.map (restartOne engine)
        ∧ rs.map RestartOutcome.id = l
        ∧ ∀ r ∈ rs, (r.status = str "restarted" ∧ r.error = none)
            ∨ (r.status = str "error" ∧ ∃ d, r.error = some d))
    ∧ ((∀ l, bodyIds = some l → l.length ≠ 4) →
      restartRoute engine bodyIds = ((400, none), [])) := by
  constructor
  · rintro l rfl h4
    refine ⟨l.map (restartOne engine), ?_, ?_, rfl, ?_, ?_⟩
    · simp [restartRoute, restartContainers, h4, restart_foldl]
    · simp [h4]
    · have : ∀ x, (restartOne engine x).id = x := by
        intro x
        cases hx : engine x <;> simp [restartOne, hx]
      simp [List.map_map, Function.comp_def, this]
    · intro r hr
      rcases List.mem_map.mp hr with ⟨x, _, rfl⟩
      cases hx : engine x with
      | none => exact Or.inl (by simp [restartOne, hx])
      | some msg => exact Or.inr (by simp [restartOne, hx])
  · intro h
    match bodyIds with
    | none => rfl
    | some l =>
      have h4 := h l rfl
      simp [restartRoute, h4]

/-- Engine oracle for the C2 witness: restarting `b` fails, the rest succeed. -/
def c2Engine : RestartEngine := fun id =>
  if id == str "b" then some (str "boom") else none

/-- C2 witness: a concrete 4-element batch with one engine failure yields a
200 with 4 ordered records, and the invalid-count side yields a 400. -/
theorem c2_restart_batch_contract_witness :
    (∃ rs, restartRoute c2Engine (some [str "a", str "b", str "c", str "d"])
        = ((200, some rs), [str "a", str "b", str "c", str "d"])
      ∧ rs.length = 4
      ∧ rs = [str "a", str "b", str "c", str "d"].map (restartOne c2Engine)
      ∧ rs.map RestartOutcome.id = [str "a", str "b", str "c", str "d"]
      ∧ ∀ r ∈ rs, (r.status = str "restarted" ∧ r.error = none)
          ∨ (r.status = str "error" ∧ ∃ d, r.error = some d))
    ∧ restartRoute c2Engine (some [str "a", str "b"]) = ((400, none), []) := by
  constructor
  · exact (c2_restart_batch_contract c2Engine
      (some [str "a", str "b", str "c", str "d"])).1
      [str "a", str "b", str "c", str "d"] rfl (by decide)
  · exact (c2_restart_batch_contract c2Engine (some [str "a", str "b"])).2
      (by intro l hl; cases hl; decide)

/-! ## Resource limit updater: `parseMemory` (src/docker.js lines 166-183)

JavaScript numbers reached by this code are exact decimal values; they are
modelled by `JsNum` (`nan`, or `finite n d` denoting `n / 10 ^ d`). -/

/-- Idealization of a JavaScript number as produced by `parseFloat` on a
digits-and-dots string and by the arithmetic in `parseMemory`. -/
inductive JsNum
| nan
| finite (num : ℤ) (exp10 : ℕ)
deriving DecidableEq

/-- Numeric value of a `JsNum`, `none` for `NaN`. -/
def JsNum.toRat : JsNum → Option ℚ
| .nan => none
| .finite n d => some ((n : ℚ) / 10 ^ d)

/-- Multiplication by a natural constant (the `num * 1024 ** k` steps). -/
def JsNum.scaleN : JsNum → ℕ → JsNum
| .nan, _ => .nan
| .finite n d, k => .finite (n * k) d

/-- Model of `Math.round`: for finite x this is `⌊x + 1/2⌋`
(`(2n + 10^d) / (2·10^d)` rounded down), and `NaN` maps to `NaN`. -/
def jsRound : JsNum → JsNum
| .nan => .nan
| .finite n d => .finite (Int.fdiv (2 * n + 10 ^ d) (2 * 10 ^ d)) 0

/-- Model of `String.prototype.trim` for the character set in play. -/
def jsTrim (s : Str) : Str :=
  ((s.dropWhile Char.isWhitespace).reverse.dropWhile Char.isWhitespace).reverse

/-- Value of a string of decimal digits. -/
def digitsToNat (l : Str) : ℕ :=
  l.foldl (fun a c => 10 * a + (c.toNat - '0'.toNat)) 0

/-- Model of `parseFloat` restricted to strings over `[0-9.]` (the only
inputs it receives here, namely the regex capture group):  an integer part,
optionally a dot and a fraction part, is parsed greedily; a string carrying
no digit before a second dot is `NaN`. -/
def parseFloatDigits (p : Str) : JsNum :=
  let ip := p.takeWhile Char.isDigit
  match p.drop ip.length with
  | '.' :: r =>
    let fp := r.takeWhile Char.isDigit
    if ip.isEmpty && fp.isEmpty then .nan
    else .finite ((digitsToNat (ip ++ fp) : ℤ)) fp.length
  | _ => if ip.isEmpty then .nan else .finite ((digitsToNat ip : ℤ)) 0

/-- Character class `[0-9.]` of the capture group in `parseMemory`. -/
def isDigitOrDot (c : Char) : Bool := c.isDigit || c == '.'

/-- Argument to `parseMemory`: a JavaScript number or a string. -/
inductive MemInput
| num (x : JsNum)
| str (s : Str)
deriving DecidableEq

/-- Model of `parseMemory(value)` (src/docker.js lines 166-183).  A number is
returned unchanged.  A string is trimmed, then matched against
`^([0-9.]+)\s*([kKmMgG])?` — note the regex has no end anchor, so trailing
characters after the number (and optional unit) are ignored; only a string
whose trimmed form does not even start with a `[0-9.]` character fails.  The
capture groups are the greedy `[0-9.]+` run and, after optional whitespace, an
optional single unit letter; the unit is lower-cased and selects the 1024
power, and the result goes through `Math.round`. -/
def parseMemory : MemInput → Except Str JsNum
| .num x => .ok x
| .str s =>
  let t := jsTrim s
  let p := t.takeWhile isDigitOrDot
  if p.isEmpty then .error (str "Invalid memory format")
  else
    let afterNum := (t.drop p.length).dropWhile Char.isWhitespace
    let unit : Option Char :=
      match afterNum with
      | c :: _ => if (str "kKmMgG").contains c then some c.toLower else none
      | [] => none
    let n := parseFloatDigits p
    match unit with
    | some 'g' => .ok (jsRound (n.scaleN (1024 ^ 3)))
    | some 'm' => .ok (jsRound (n.scaleN (1024 ^ 2)))
    | some 'k' => .ok (jsRound (n.scaleN 1024))
    | _ => .ok (jsRound n)

/-- Modelled from the spec: the "numeric-plus-optional-unit shape" — a decimal
number optionally followed by a single-letter unit k/m/g (case-insensitive),
covering the whole string.  Used only to state claim C3. -/
def memorySpecShape (s : Str) : Bool :=
  let ip := s.takeWhile Char.isDigit
  if ip.isEmpty then false
  else
    let rest := s.drop ip.length
    let rem : Option Str :=
      match rest with
      | '.' :: r =>
        let fp := r.takeWhile Char.isDigit
        if fp.isEmpty then none else some (r.drop fp.length)
      | _ => some rest
    match rem with
    | none => false
    | some [] => true
    | some [c] => (str "kKmMgG").contains c
    | some _ => false

/-- C3 (counterexample): the string `12abc` does not match the
numeric-plus-optional-unit shape, yet `parseMemory` accepts it and returns 12
(the regex is not end-anchored), instead of failing with
`InvalidMemorySpec`. -/
theorem c3_trailing_garbage_accepted :
    memorySpecShape (str "12abc") = false
      ∧ parseMemory (.str (str "12abc")) = .ok (.finite 12 0) := by
  decide

theorem parseMemory_error_iff (s : Str) :
    parseMemory (.str s) = .error (str "Invalid memory format")
      ↔ (jsTrim s).takeWhile isDigitOrDot = [] := by
  rw [← List.isEmpty_iff]
  simp only [parseMemory]
  cases h : ((jsTrim s).takeWhile isDigitOrDot).isEmpty
  · simp only [h, Bool.false_eq_true, if_false, iff_false]
    split <;> simp
  · simp [h]

/-- C3 (amended): `ParseMemory("4g") = 4·1024³`, `ParseMemory("512m") =
512·1024²`, `ParseMemory(1024) = 1024`, and `ParseMemory("abc")` fails with
`InvalidMemorySpec`; however a string fails with `InvalidMemorySpec` exactly
when its trimmed form does not begin with a `[0-9.]` character — trailing
characters after the leading number-and-unit are ignored, not rejected. -/
theorem c3_parse_memory (s : Str) :
    parseMemory (.num (.finite 1024 0)) = .ok (.finite 1024 0)
    ∧ parseMemory (.str (str "4g")) = .ok (.finite 4294967296 0)
    ∧ (JsNum.finite 4294967296 0).toRat = some ((4 : ℚ) * 1024 ^ 3)
    ∧ parseMemory (.str (str "512m")) = .ok (.finite 536870912 0)
    ∧ (JsNum.finite 536870912 0).toRat = some ((512 : ℚ) * 1024 ^ 2)
    ∧ parseMemory (.str (str "abc")) = .error (str "Invalid memory format")
    ∧ (parseMemory (.str s) = .error (str "Invalid memory format")
        ↔ (jsTrim s).takeWhile isDigitOrDot = []) :=
  ⟨by decide, by decide, by norm_num [JsNum.toRat], by decide,
   by norm_num [JsNum.toRat], by decide, parseMemory_error_iff s⟩

/-- C3 witness: the amended theorem applied at the concrete input `abc`. -/
theorem c3_parse_memory_witness :
    (jsTrim (str "abc")).takeWhile isDigitOrDot = [] :=
  ((c3_parse_memory (str "abc")).2.2.2.2.2.2).mp (by decide)

/-! ## Process-manager controller: `pm2LogsContains` (src/docker.js 101-133)

The stream of `data` events is modelled as a list of timestamped chunks
(milliseconds since the stream was attached).  The `setTimeout` callback
fires at 3000 ms, removes all listeners and resolves with the accumulated
`found` flag, so chunks at `t ≥ 3000` are never observed and the promise
always resolves at 3000 ms.  The listener tests each chunk individually with
`chunk.toString().includes(searchString)`. -/

/-- One `data` event of the log stream. -/
structure LogChunk where
  t : ℕ
  data : Str
deriving DecidableEq

/-- Model of `String.prototype.includes`. -/
def containsSub : Str → Str → Bool
  | [], needle => needle.isEmpty
  | hay@(_ :: rest), needle => needle.isPrefixOf hay || containsSub rest needle

/-- One execution of the `data` listener (plus the listener removal at the
timeout): `if (!found && chunk.toString().includes(searchString)) found = true`
for chunks arriving before the 3000 ms timer, no effect afterwards. -/
def logsFoundStep (needle : Str) (found : Bool) (e : LogChunk) : Bool :=
  if e.t < 3000 then
    if !found && containsSub e.data needle then true else found
  else found

/-- Model of `pm2LogsContains`: the promise resolves at 3000 ms (first
component) with the `found` flag accumulated over the observed chunks
(second component). -/
def pm2LogsContains (events : List LogChunk) (needle : Str) : ℕ × Bool :=
  (3000, events.foldl (logsFoundStep needle) false)

theorem logsFoundStep_eq (needle : Str) (found : Bool) (e : LogChunk) :
    logsFoundStep needle found e
      = (found || (decide (e.t < 3000) && containsSub e.data needle)) := by
  unfold logsFoundStep
  by_cases h : e.t < 3000
  · cases found <;> cases hc : containsSub e.data needle <;> simp [h, hc]
  · simp [h]

theorem foldl_or_any {α : Type} (g : α → Bool) (l : List α) (acc : Bool) :
    l.foldl (fun x e => x || g e) acc = (acc || l.any g) := by
  induction l generalizing acc with
  | nil => simp
  | cons a as ih => simp [ih, Bool.or_assoc]

/-- C5 (counterexample): with the needle arriving in the very first chunk at
t = 0, the call still resolves only at the full 3000 ms window (with value
`true`) — refuting "returns true as soon as the needle appears, without
waiting out the full 3-second window". -/
theorem c5_always_waits_full_window :
    pm2LogsContains [⟨0, str "x needle y"⟩] (str "needle") = (3000, true)
      ∧ ¬ (pm2LogsContains [⟨0, str "x needle y"⟩] (str "needle")).1 < 3000 := by
  decide

/-- C5 (amended): the call resolves `false` when no chunk observed within the
3-second window contains the needle, and `true` exactly when some chunk
arriving before 3000 ms contains it — but in either case it resolves only
when the full 3-second window elapses, never earlier (and a needle split
across two chunks is not detected, since each chunk is tested separately). -/
theorem c5_logs_contains (events : List LogChunk) (needle : Str) :
    (pm2LogsContains events needle).1 = 3000
    ∧ ((pm2LogsContains events needle).2 = true ↔
        ∃ e ∈ events, e.t < 3000 ∧ containsSub e.data needle = true) := by
  refine ⟨rfl, ?_⟩
  have hstep : logsFoundStep needle
      = fun x e => x || (decide (e.t < 3000) && containsSub e.data needle) := by
    funext x e
    exact logsFoundStep_eq needle x e
  simp only [pm2LogsContains]
  rw [hstep, foldl_or_any]
  simp [List.any_eq_true]

/-- C5 witness: the amended theorem instantiated on a single early chunk. -/
theorem c5_logs_contains_witness :
    ∃ e ∈ [LogChunk.mk 10 (str "ab")], e.t < 3000
      ∧ containsSub e.data (str "b") = true :=
  (c5_logs_contains [⟨10, str "ab"⟩] (str "b")).2.mp (by decide)

/-! ## Container inspector: `listContainers` (src/docker.js lines 14-20) -/

/-- Engine-reported container record, as far as `listContainers` reads it:
the full identifier and the optional `Names` array. -/
structure EngineContainer where
  Id : Str
  Names : Option (List Str)
deriving DecidableEq

/-- Model of `.replace(/^\//, "")`: removes one leading `/` if present. -/
def stripLeadingSlash (n : Str) : Str :=
  match n with
  | c :: r => if c = '/' then r else n
  | [] => n

/-- Model of `c.Names?.[0] || ""`. -/
def firstNameOf (c : EngineContainer) : Str :=
  ((c.Names.getD []).head?).getD []

/-- Container summary: truncated id and normalized display name. -/
structure ContainerSummary where
  id : Str
  name : Str
deriving DecidableEq

/-- Projection applied to each engine-reported container by
`listContainers`. -/
def summarize (c : EngineContainer) : ContainerSummary :=
  ⟨c.Id.take 12, stripLeadingSlash (firstNameOf c)⟩

/-- Model of `listContainers(docker)` over the engine's reported list. -/
def listContainers (cs : List EngineContainer) : List ContainerSummary :=
  cs.map summarize

/-- C6 (counterexample): an engine-reported name starting with two path
separators keeps a leading separator in the summary, since the code strips
only the first one — refuting "name never contains a leading path-separator
character". -/
theorem c6_double_slash_keeps_separator :
    listContainers [⟨str "0123456789abcdef", some [str "//x"]⟩]
        = [⟨str "0123456789ab", str "/x"⟩]
      ∧ (str "/x").head? = some '/' := by
  decide

theorem stripLeadingSlash_head (n : Str)
    (h : (str "//").isPrefixOf n = false) :
    ∀ ch, (stripLeadingSlash n).head? = some ch → ch ≠ '/' := by
  intro ch hch hsl
  subst hsl
  cases n with
  | nil => simp [stripLeadingSlash] at hch
  | cons c0 r =>
    by_cases h0 : c0 = '/'
    · subst h0
      simp only [stripLeadingSlash, if_pos rfl] at hch
      cases r with
      | nil => simp at hch
      | cons c1 r2 =>
        simp at hch
        subst hch
        have : str "//" = ['/', '/'] := by decide
        rw [this] at h
        simp [List.isPrefixOf] at h
    · simp only [stripLeadingSlash, if_neg h0] at hch
      simp at hch
      exact h0 hch

/-- C6 (amended): every Container Summary produced by `listContainers` has an
id that is the first 12 characters of the engine-reported identifier (the
whole identifier when it is shorter), and its name has no leading path
separator provided the engine-reported name does not start with two
separators — the code removes only a single leading `/`. -/
theorem c6_summary_projection (c : EngineContainer) :
    (∀ cs, c ∈ cs → summarize c ∈ listContainers cs)
    ∧ (summarize c).id = c.Id.take 12
    ∧ ((str "//").isPrefixOf (firstNameOf c) = false →
        ∀ ch, (summarize c).name.head? = some ch → ch ≠ '/') := by
  refine ⟨?_, rfl, ?_⟩
  · intro cs hc
    exact List.mem_map.mpr ⟨c, hc, rfl⟩
  · intro h
    exact stripLeadingSlash_head (firstNameOf c) h

/-- C6 witness: the amended theorem instantiated on a container with the
conventional single-slash engine name. -/
theorem c6_summary_projection_witness :
    ∀ ch, (summarize ⟨str "0123456789abcdef", some [str "/web"]⟩).name.head?
        = some ch → ch ≠ '/' :=
  (c6_summary_projection ⟨str "0123456789abcdef", some [str "/web"]⟩).2.2
    (by decide)

/-! ## File injector: `putFileInContainer` (src/docker.js lines 207-228)

The local filesystem is modelled as a list of existing paths.  Each step of
the `try` body may fail (oracle booleans); a step that fails has no effect
and control jumps to the `finally` block, which removes the staging
directory recursively (`fs.rm(tmpDir, recursive:true, force:true)`) and the
tar file (`fs.rm(tmpTar, force:true)`) on every exit path. -/

/-- Success oracles for the five side-effecting steps of the `try` body:
`fs.mkdir`, `fs.writeFile`, `exec(tar ...)`, `fs.readFile`, `putArchive`. -/
structure PutFileEnv where
  mkdirOk : Bool
  writeOk : Bool
  tarOk : Bool
  readOk : Bool
  putOk : Bool
deriving DecidableEq

/-- Staging directory name `/tmp/docker-upload-<cid12>-<unique>`. -/
def tmpDirOf (cid unique : Str) : Str :=
  str "/tmp/docker-upload-" ++ cid.take 12 ++ str "-" ++ unique

/-- Staged file `<tmpDir>/<filename>`. -/
def tmpFileOf (cid unique fname : Str) : Str :=
  tmpDirOf cid unique ++ str "/" ++ fname

/-- Intermediate archive `<tmpDir>.tar`. -/
def tmpTarOf (cid unique : Str) : Str :=
  tmpDirOf cid unique ++ str ".tar"

/-- Path is the staging directory itself or lies under it. -/
def underDir (d p : Str) : Bool :=
  p == d || (d ++ str "/").isPrefixOf p

/-- The `finally` block: remove the staging directory (recursively) and the
tar archive. -/
def putFileCleanup (cid unique : Str) (fs : List Str) : List Str :=
  (fs.filter (fun p => !underDir (tmpDirOf cid unique) p)).filter
    (fun p => p ≠ tmpTarOf cid unique)

/-- Model of `putFileInContainer(docker, containerId, destPath, filename,
contentBuffer)`: runs the staged steps in order over the filesystem `fs0`,
stopping at the first failing step, and applies the `finally` cleanup on
every exit path.  Returns the call's outcome and the final filesystem. -/
def putFileInContainer (env : PutFileEnv) (fs0 : List Str)
    (cid unique fname : Str) : Except Str Unit × List Str :=
  let tmpDir := tmpDirOf cid unique
  let tmpFile := tmpFileOf cid unique fname
  let tmpTar := tmpTarOf cid unique
  let done := putFileCleanup cid unique
  if !env.mkdirOk then (.error (str "mkdir failed"), done fs0)
  else
    let fs1 := tmpDir :: fs0
    if !env.writeOk then (.error (str "write failed"), done fs1)
    else
      let fs2 := tmpFile :: fs1
      if !env.tarOk then (.error (str "tar failed"), done fs2)
      else
        let fs3 := tmpTar :: fs2
        if !env.readOk then (.error (str "read failed"), done fs3)
        else if !env.putOk then (.error (str "putArchive failed"), done fs3)
        else (.ok (), done fs3)

/-- C7: on every exit path of `putFileInContainer` — success or any failing
step — the staging directory, the staged file and the intermediate tar
archive are absent from the filesystem when the call returns: the `finally`
cleanup leaves zero temporary artifacts behind. -/
theorem c7_put_file_cleanup (env : PutFileEnv) (fs0 : List Str)
    (cid unique fname : Str) :
    ∀ p ∈ (putFileInContainer env fs0 cid unique fname).2,
      p ≠ tmpDirOf cid unique
        ∧ p ≠ tmpFileOf cid unique fname
        ∧ p ≠ tmpTarOf cid unique := by
  have key : ∀ fs : List Str, ∀ p ∈ putFileCleanup cid unique fs,
      p ≠ tmpDirOf cid unique
        ∧ p ≠ tmpFileOf cid unique fname
        ∧ p ≠ tmpTarOf cid unique := by
    intro fs p hp
    rcases List.mem_filter.mp hp with ⟨hp1, htar⟩
    rcases List.mem_filter.mp hp1 with ⟨_, hdir⟩
    simp only [underDir, Bool.not_eq_true', Bool.or_eq_false_iff] at hdir
    rcases hdir with ⟨hself, hunder⟩
    refine ⟨?_, ?_, by simpa using htar⟩
    · intro hh
      subst hh
      simp at hself
    · intro hh
      subst hh
      rw [show tmpFileOf cid unique fname
            = (tmpDirOf cid unique ++ str "/") ++ fname from rfl] at hunder
      rw [isPrefixOf_append] at hunder
      cases hunder
  unfold putFileInContainer
  cases env.mkdirOk <;> cases env.writeOk <;> cases env.tarOk <;>
    cases env.readOk <;> cases env.putOk <;>
    simpa using key _

/-- C7 witness: a concrete failing run (tar step fails) leaves only the
pre-existing unrelated path, and that path is none of the artifacts. -/
theorem c7_put_file_cleanup_witness :
    str "/keep" ≠ tmpDirOf (str "abc") (str "ffff")
      ∧ str "/keep" ≠ tmpFileOf (str "abc") (str "ffff") (str "e.json")
      ∧ str "/keep" ≠ tmpTarOf (str "abc") (str "ffff") :=
  c7_put_file_cleanup ⟨true, true, false, true, true⟩ [str "/keep"]
    (str "abc") (str "ffff") (str "e.json") (str "/keep") (by decide)

/-! ## Update-with-backup orchestrator (src/docker.js lines 484-585)

`findContainerByDomain` is modelled over the engine's reported container
list; the orchestrator's side-effecting steps (shell `mkdir`, the six
`docker cp` invocations, the external deploy procedure, the re-listing for
the bounded relocate retry, and the final in-container pm2 restart) are
driven by oracles and recorded in an explicit action trace, in execution
order.  Any step's failure is rethrown wrapped as
`Falha no update: <cause>`. -/

/-- Naming convention `docker_<domain>_chat`. -/
def containerPatternOf (domain : Str) : Str :=
  str "docker_" ++ domain ++ str "_chat"

/-- Model of `findContainerByDomain(docker, domain)` (src/docker.js lines
484-492): first container one of whose names, stripped of the leading
slash, equals the pattern exactly; error when none matches. -/
def findContainerByDomain (cs : List EngineContainer) (domain : Str) :
    Except Str Str :=
  match cs.find? (fun c => (c.Names.getD []).any
      (fun n => stripLeadingSlash n == containerPatternOf domain)) with
  | some c => .ok (c.Id.take 12)
  | none => .error (str "Container \"" ++ containerPatternOf domain
      ++ str "\" não encontrado")

/-- Observable side-effecting steps of the update-with-backup workflow. -/
inductive OrchAction
| mkdirBackup
| backupCp (path : Str)
| deploy
| relocateAttempt (i : ℕ)
| restoreCp (path : Str)
| pm2RestartAll
deriving DecidableEq

/-- Oracles for the workflow's environment: the engine's container list at
the initial locate, failure behaviour of each shell step, the deploy
outcome, the container list seen by each relocate attempt, and the pm2
restart outcome. -/
structure OrchEnv where
  containers : List EngineContainer
  mkdirErr : Option Str
  backupCpErr : ℕ → Option Str
  deployResult : Except Str Str
  relist : ℕ → List EngineContainer
  restoreCpErr : ℕ → Option Str
  pm2Result : Except Str Str

/-- Structured success record returned on full success. -/
structure OrchSuccess where
  oldContainerId : Str
  newContainerId : Str
  backupDir : Str
  domain : Str
  message : Str
  updateLog : Str
  restartOutput : Str
deriving DecidableEq

/-- Hardcoded certificate path backed up by the workflow. -/
def crtPath : Str := str "/etc/nginx/myuc2b.com.crt"

/-- Hardcoded key path backed up by the workflow. -/
def keyPath : Str := str "/etc/nginx/myuc2b.com.key"

/-- Hardcoded settings script path backed up by the workflow. -/
def settingsPath : Str :=
  str "/app/app.hubot/node_modules/@rocket.chat/sdk/dist/lib/settings.js"

/-- Model of the bounded re-locate loop (`while (retries < 10)` with 1 s
spacing): attempt numbers count up; after the 10th failed attempt the loop
throws the timeout error.  Called with fuel 10. -/
def relocate (env : OrchEnv) (domain : Str) :
    ℕ → ℕ → Except Str Str × List OrchAction
  | _, 0 => (.error (str "Timeout esperando novo container aparecer"), [])
  | attempt, fuel + 1 =>
    match findContainerByDomain (env.relist attempt) domain with
    | .ok id => (.ok id, [.relocateAttempt attempt])
    | .error _ =>
      if fuel = 0 then
        (.error (str "Timeout esperando novo container aparecer"),
          [.relocateAttempt attempt])
      else
        let r := relocate env domain (attempt + 1) fuel
        (r.1, .relocateAttempt attempt :: r.2)

/-- Model of `updateDockerInstanceWithBackup(docker, domain)` (src/docker.js
lines 500-585): locate, mkdir backup dir, three backup copies, deploy,
bounded re-locate, three restore copies, pm2 restart; each failure aborts
the remainder and surfaces once, wrapped as `Falha no update: <cause>`. -/
def updateDockerInstanceWithBackup (env : OrchEnv) (domain : Str) :
    Except Str OrchSuccess × List OrchAction :=
  let wrap := fun (m : Str) => str "Falha no update: " ++ m
  let backupDir := str "/tmp/" ++ domain
  match findContainerByDomain env.containers domain with
  | .error m => (.error (wrap m), [])
  | .ok oldId =>
    match env.mkdirErr with
    | some m => (.error (wrap m), [.mkdirBackup])
    | none =>
      match env.backupCpErr 0 with
      | some m => (.error (wrap m), [.mkdirBackup, .backupCp crtPath])
      | none =>
        match env.backupCpErr 1 with
        | some m => (.error (wrap m),
            [.mkdirBackup, .backupCp crtPath, .backupCp keyPath])
        | none =>
          match env.backupCpErr 2 with
          | some m => (.error (wrap m),
              [.mkdirBackup, .backupCp crtPath, .backupCp keyPath,
               .backupCp settingsPath])
          | none =>
            let trB := [OrchAction.mkdirBackup, .backupCp crtPath,
              .backupCp keyPath, .backupCp settingsPath]
            match env.deployResult with
            | .error m => (.error (wrap m), trB ++ [.deploy])
            | .ok updateLog =>
              let trD := trB ++ [OrchAction.deploy]
              match relocate env domain 0 10 with
              | (.error m, trR) => (.error (wrap m), trD ++ trR)
              | (.ok newId, trR) =>
                let trL := trD ++ trR
                match env.restoreCpErr 0 with
                | some m => (.error (wrap m), trL ++ [.restoreCp crtPath])
                | none =>
                  match env.restoreCpErr 1 with
                  | some m => (.error (wrap m),
                      trL ++ [.restoreCp crtPath, .restoreCp keyPath])
                  | none =>
                    match env.restoreCpErr 2 with
                    | some m => (.error (wrap m),
                        trL ++ [.restoreCp crtPath, .restoreCp keyPath,
                          .restoreCp settingsPath])
                    | none =>
                      let trRe := trL ++ [OrchAction.restoreCp crtPath,
                        .restoreCp keyPath, .restoreCp settingsPath]
                      match env.pm2Result with
                      | .error m => (.error (wrap m), trRe ++ [.pm2RestartAll])
                      | .ok restartOutput =>
                        (.ok ⟨oldId, newId, backupDir, domain,
                            str "Update completo com sucesso",
                            updateLog, restartOutput⟩,
                          trRe ++ [.pm2RestartAll])

/-- C8: when no container's display name matches `docker_<domain>_chat`
exactly, the workflow fails with the wrapped container-not-found error and
its action trace is empty — no backup copy, no deploy invocation, no restore
copy and no restart is attempted. -/
theorem c8_no_container_no_side_effects (env : OrchEnv) (domain : Str)
    (h : ∀ c ∈ env.containers, ∀ n ∈ c.Names.getD [],
        stripLeadingSlash n ≠ containerPatternOf domain) :
    updateDockerInstanceWithBackup env domain
      = (.error (str "Falha no update: "
          ++ (str "Container \"" ++ containerPatternOf domain
              ++ str "\" não encontrado")), []) := by
  have hnone : env.containers.find? (fun c => (c.Names.getD []).any
      (fun n => stripLeadingSlash n == containerPatternOf domain)) = none := by
    rw [List.find?_eq_none]
    intro c hc
    simp only [List.any_eq_true, beq_iff_eq]
    rintro ⟨n, hn, heq⟩
    exact h c hc n hn heq
  have hfind : findContainerByDomain env.containers domain
      = .error (str "Container \"" ++ containerPatternOf domain
          ++ str "\" não encontrado") := by
    unfold findContainerByDomain
    rw [hnone]
  unfold updateDockerInstanceWithBackup
  rw [hfind]

/-- Environment for the C8 witness: one container whose name matches a
different domain's pattern. -/
def c8WitnessEnv : OrchEnv :=
  ⟨[⟨str "abcdef123456", some [str "/docker_other_chat"]⟩],
    none, fun _ => none, .ok (str "log"), fun _ => [],
    fun _ => none, .ok (str "ok")⟩

/-- C8 witness: the theorem applied to a concrete non-matching domain. -/
theorem c8_no_container_no_side_effects_witness :
    updateDockerInstanceWithBackup c8WitnessEnv (str "mydomain")
      = (.error (str "Falha no update: "
          ++ (str "Container \"" ++ containerPatternOf (str "mydomain")
              ++ str "\" não encontrado")), []) :=
  c8_no_container_no_side_effects c8WitnessEnv (str "mydomain") (by decide)

/-! ## Ecosystem descriptor validation and start route
(src/server.js lines 230-304)

JSON values are modelled by `JVal` (numbers as exact decimals `n / 10^d`).
The validator is compiled by Ajv created with
`new Ajv(allErrors:true, removeAdditional:"failing", strict:false)`.
Under `removeAdditional:"failing"` a property rejected by an
`additionalProperties` keyword is REMOVED from the data instead of yielding
a validation error: unknown top-level properties, unknown per-app
properties, and `env` entries whose values fail the type schema are all
stripped silently.  Validation errors therefore arise only from wrong
types, missing `required` keys, `minItems`/`maxItems`/length bounds, enum
membership and the string patterns of properties that are declared in the
schema.  The regex patterns are translated for JavaScript RegExp semantics
(`^`/`$` anchor the whole string, `.` does not cross line terminators,
and the unicode classes are restricted to the character set in play). -/

/-- JSON value. -/
inductive JVal
| null
| bool (b : Bool)
| num (n : ℤ) (exp10 : ℕ)
| str (s : Str)
| arr (xs : List JVal)
| obj (fields : List (Str × JVal))

/-- First binding of a key in a JSON object. -/
def lookupField (fields : List (Str × JVal)) (k : Str) : Option JVal :=
  (fields.find? (fun f => f.1 == k)).map (fun f => f.2)

/-- JavaScript line terminators (the characters `.` does not match). -/
def isLineTerm (c : Char) : Bool :=
  c == '\n' || c == '\r' || c == '\u2028' || c == '\u2029'

/-- Match of the `script` pattern `^/(app|var)/(log|app|[^\s]+).*$`: the
string starts with `/app/` or `/var/`, the remainder is nonempty and starts
with a non-whitespace character (the alternation needs at least one such
character), and the remainder's tail holds no line terminator (`.*` must
reach the `$` end anchor). -/
def matchScriptPattern (s : Str) : Bool :=
  ((str "/app/").isPrefixOf s || (str "/var/").isPrefixOf s) &&
    (match s.drop 5 with
     | [] => false
     | c :: rest => !c.isWhitespace && !(rest.any isLineTerm))

/-- Match of the `max_memory_restart` pattern `^[0-9]+(K|M|G|k|m|g)$`. -/
def matchMemRestart (s : Str) : Bool :=
  let ds := s.takeWhile Char.isDigit
  !ds.isEmpty &&
    (match s.drop ds.length with
     | [c] => (str "KMGkmg").contains c
     | _ => false)

/-- Match of the `out_file`/`error_file` pattern `^/var/log/.*` (no end
anchor: any string starting with `/var/log/`). -/
def matchVarLog (s : Str) : Bool :=
  (str "/var/log/").isPrefixOf s

/-- Schema check of one property of an app entry.  Properties not declared
in the schema are additional: `removeAdditional:"failing"` removes them
without an error, hence `true`.  The `env` subschema is
`type:"object"` with `additionalProperties:(type string|number|boolean)`;
its entries are all additional, so failing ones are removed and never make
validation fail — only the object type is enforced. -/
def checkAppField (k : Str) (v : JVal) : Bool :=
  if k == str "name" then
    match v with
    | .str s => decide (1 ≤ s.length) && decide (s.length ≤ 100)
    | _ => false
  else if k == str "script" then
    match v with
    | .str s => matchScriptPattern s
    | _ => false
  else if k == str "watch" then
    match v with
    | .bool _ => true
    | _ => false
  else if k == str "ignore_watch" then
    match v with
    | .arr xs => decide (xs.length ≤ 50) && xs.all (fun x =>
        match x with
        | .str s => decide (s.length ≤ 200)
        | _ => false)
    | _ => false
  else if k == str "autorestart" then
    match v with
    | .bool _ => true
    | _ => false
  else if k == str "instances" then
    match v with
    | .num n d => decide (n % (10 : ℤ) ^ d = 0) && decide ((10 : ℤ) ^ d ≤ n)
        && decide (n ≤ 64 * (10 : ℤ) ^ d)
    | _ => false
  else if k == str "max_memory_restart" then
    match v with
    | .str s => matchMemRestart s
    | _ => false
  else if k == str "exec_mode" then
    match v with
    | .str s => s == str "fork" || s == str "cluster"
    | _ => false
  else if k == str "interpreter" then
    match v with
    | .str s => decide (s.length ≤ 300)
    | _ => false
  else if k == str "env" then
    match v with
    | .obj _ => true
    | _ => false
  else if k == str "out_file" then
    match v with
    | .str s => matchVarLog s
    | _ => false
  else if k == str "error_file" then
    match v with
    | .str s => matchVarLog s
    | _ => false
  else if k == str "log_date_format" then
    match v with
    | .str s => decide (s.length ≤ 100)
    | _ => false
  else
    true

/-- The `required` list of each app entry. -/
def requiredAppKeys : List Str :=
  [str "name", str "script", str "instances", str "exec_mode"]

/-- Validation of one app entry: an object presenting the four required
keys, every declared property conforming to its subschema; additional
properties are stripped, not rejected. -/
def validApp (v : JVal) : Bool :=
  match v with
  | .obj fields =>
    requiredAppKeys.all (fun k => (lookupField fields k).isSome) &&
      fields.all (fun f => checkAppField f.1 f.2)
  | _ => false

/-- Validation outcome of `validateEcosystem(ecosystem)`: an object whose
`apps` key holds a nonempty array of valid app entries.  Unknown top-level
properties are removed by `removeAdditional:"failing"` and cause no
error. -/
def validateEcosystem (v : JVal) : Bool :=
  match v with
  | .obj fields =>
    match lookupField fields (str "apps") with
    | some (.arr xs) => decide (1 ≤ xs.length) && xs.all validApp
    | some _ => false
    | none => false
  | _ => false

/-- JavaScript falsiness of a JSON value (`!ecosystem`). -/
def jsFalsy (v : JVal) : Bool :=
  match v with
  | .null => true
  | .bool b => !b
  | .num n _ => n == 0
  | .str s => s.isEmpty
  | .arr _ => false
  | .obj _ => false

/-- JavaScript `typeof v === "object"` for a JSON value. -/
def jsTypeofObject (v : JVal) : Bool :=
  match v with
  | .null => true
  | .obj _ => true
  | .arr _ => true
  | _ => false

/-- Response status of the ecosystem-start route plus whether the staging
call (`putFileInContainer` → `putArchive`) was reached. -/
structure EcoHandlerResult where
  status : ℕ
  staged : Bool
deriving DecidableEq

/-- Model of the `POST /v1/containers/:id/pm2/ecosystem/start` handler
(src/server.js lines 274-304): missing/falsy/non-object body field and
schema-invalid descriptors are answered 400 before any staging; otherwise
the file is staged (oracle `putFileErr`) and `pm2 start` is run (oracle
`pm2Result`). -/
def ecosystemStartHandler (putFileErr : Option Str) (pm2Result : Except Str Str)
    (ecosystem : Option JVal) : EcoHandlerResult :=
  match ecosystem with
  | none => ⟨400, false⟩
  | some v =>
    if jsFalsy v || !jsTypeofObject v then ⟨400, false⟩
    else if !validateEcosystem v then ⟨400, false⟩
    else
      match putFileErr with
      | some _ => ⟨500, true⟩
      | none =>
        match pm2Result with
        | .ok _ => ⟨200, true⟩
        | .error _ => ⟨500, true⟩

/-- A fully valid app entry. -/
def goodApp : JVal :=
  .obj [(str "name", .str (str "a")),
        (str "script", .str (str "/app/a.js")),
        (str "instances", .num 1 0),
        (str "exec_mode", .str (str "fork"))]

/-- Descriptor with an unknown top-level property next to a valid `apps`. -/
def ecoWithUnknownTopLevel : JVal :=
  .obj [(str "apps", .arr [goodApp]), (str "junk", .num 1 0)]

/-- C4 (counterexample): a descriptor with an unknown top-level property is
not rejected — `removeAdditional:"failing"` strips the property, validation
succeeds, and the file is staged in the container (the handler reaches
`putFileInContainer` and answers 200) — refuting "rejected (HTTP 400)
before any file is staged". -/
theorem c4_unknown_property_not_rejected :
    ecosystemStartHandler none (.ok (str "started"))
        (some ecoWithUnknownTopLevel) = ⟨200, true⟩
      ∧ (ecosystemStartHandler none (.ok (str "started"))
          (some ecoWithUnknownTopLevel)).status ≠ 400 := by
  decide

/-- C4 (amended): a descriptor containing a process entry that is an object
missing any of `name`, `script`, `instances`, `exec_mode` is rejected with
400 before any file is staged (no staging or putArchive call occurs); an
unknown top-level property, however, is removed by the validator and does
not cause rejection. -/
theorem c4_missing_required_rejected (putFileErr : Option Str)
    (pm2Result : Except Str Str) (fields : List (Str × JVal))
    (apps : List JVal) (entry : JVal) (afields : List (Str × JVal))
    (happs : lookupField fields (str "apps") = some (.arr apps))
    (hmem : entry ∈ apps) (hentry : entry = .obj afields)
    (k : Str) (hk : k ∈ requiredAppKeys)
    (hmissing : lookupField afields k = none) :
    ecosystemStartHandler putFileErr pm2Result (some (.obj fields))
      = ⟨400, false⟩ := by
  have hApp : validApp entry = false := by
    subst hentry
    simp only [validApp]
    cases hall : requiredAppKeys.all (fun kk => (lookupField afields kk).isSome) with
    | false => simp
    | true =>
      exfalso
      have := List.all_eq_true.mp hall k hk
      rw [hmissing] at this
      simp at this
  have hv : validateEcosystem (.obj fields) = false := by
    simp only [validateEcosystem, happs]
    have : apps.all validApp = false := by
      cases hx : apps.all validApp with
      | false => rfl
      | true =>
        exfalso
        have := List.all_eq_true.mp hx entry hmem
        rw [hApp] at this
        exact Bool.noConfusion this
    simp [this]
  simp [ecosystemStartHandler, jsFalsy, jsTypeofObject, hv]

/-- An app entry missing the required `name`. -/
def appMissingName : JVal :=
  .obj [(str "script", .str (str "/app/a.js")),
        (str "instances", .num 1 0),
        (str "exec_mode", .str (str "fork"))]

/-- C4 witness: the amended theorem applied to a concrete descriptor whose
single entry misses `name`. -/
theorem c4_missing_required_rejected_witness :
    ecosystemStartHandler none (.ok (str "out"))
        (some (.obj [(str "apps", .arr [appMissingName])])) = ⟨400, false⟩ :=
  c4_missing_required_rejected none (.ok (str "out"))
    [(str "apps", .arr [appMissingName])] [appMissingName] appMissingName
    [(str "script", .str (str "/app/a.js")), (str "instances", .num 1 0),
     (str "exec_mode", .str (str "fork"))]
    rfl (List.mem_singleton.mpr rfl) rfl (str "name") (by decide) rfl
